import Mathlib

/-!
A shallow embedding of the agentic-data-analyst pipeline (the Supervisor
orchestration layer, the deterministic statistical routines of the Schema,
Profile and Quality agents, and the synthesis agents), together with proofs
about the embedded definitions.

Modelling conventions:
* pandas floats are modelled as exact rationals; a pandas null (NaN/None cell)
  is modelled as none.  Where pandas produces NaN as a *result* of a
  computation on an empty input, the embedded field has type Option and the
  NaN outcome is none.
* the external generation collaborator (the DSPy modules) is an explicit
  oracle record of functions returning Except String; .error models any
  exception raised by a call.
* Python strings built only as prompt payloads or human-readable descriptions
  are reproduced structurally; the numeral rendering helpers approximate the
  Python float repr (the spec declares exact prompt wording out of scope).
-/

/-- Round half to even (the rounding mode of the Python builtin round). -/
def roundHalfEven (q : ℚ) : ℤ :=
  let f := ⌊q⌋
  if q - f < 1/2 then f
  else if 1/2 < q - f then f + 1
  else if f % 2 = 0 then f else f + 1

/-- Python round(x, 2) on exact rationals. -/
def pyRound2 (q : ℚ) : ℚ := (roundHalfEven (q * 100) : ℚ) / 100

/-- Pad a natural number with leading zeros to the given number of digits. -/
def padNat (width : ℕ) (n : ℕ) : String :=
  let s := toString n
  let pad := width - s.length
  String.mk (List.replicate pad '0') ++ s

/-- Python fixed-point formatting f-string spec .Df for D decimals. -/
def fmtFixed (decimals : ℕ) (q : ℚ) : String :=
  let m : ℕ := 10 ^ decimals
  let r := roundHalfEven (q * m)
  let sign := if r < 0 then "-" else ""
  let a := r.natAbs
  sign ++ toString (a / m) ++ "." ++ padNat decimals (a % m)

/-- Rendering of a rational where Python prints a float; approximate repr. -/
def ratStr (q : ℚ) : String := toString q

/-- Python str of a list of already-rendered items. -/
def pyListStr (items : List String) : String :=
  "[" ++ String.intercalate ", " items ++ "]"

/-- Python str of a dict with string keys and already-rendered values. -/
def pyDictStr (pairs : List (String × String)) : String :=
  "\x7b" ++ String.intercalate ", "
    (pairs.map fun kv => "\x27" ++ kv.1 ++ "\x27: " ++ kv.2) ++ "\x7d"

/-- config.MAX_SAMPLE_VALUES. -/
def MAX_SAMPLE_VALUES : ℕ := 5

/-- config.MAX_ROWS_FOR_ANALYSIS; declared in config.py but never consulted by
the core analysis functions. -/
def MAX_ROWS_FOR_ANALYSIS : ℕ := 10000

/-! ## The tabular data model -/

/-- The cells of one dataframe column.  A numeric (float/int dtype) column
holds optional rationals, an object (string) column holds optional strings;
none models a pandas null. -/
inductive ColData where
  | numeric (xs : List (Option ℚ))
  | categorical (xs : List (Option String))
deriving DecidableEq

/-- A named dataframe column. -/
structure Col where
  name : String
  data : ColData
deriving DecidableEq

/-- A pandas DataFrame: a row count, the per-column data, and the memory
usage reported by memory_usage(deep=True).sum(), carried as data because
actual memory consumption is an external measurement, not a function of the
cell values in this model. -/
structure DataFrame where
  nrows : ℕ
  memBytes : ℕ
  cols : List Col
deriving DecidableEq

def ColData.length : ColData → ℕ
  | .numeric xs => xs.length
  | .categorical xs => xs.length

/-- Well-formedness: every column has exactly nrows cells (inherent to a
pandas DataFrame). -/
def DataFrame.Wf (df : DataFrame) : Prop :=
  ∀ c ∈ df.cols, c.data.length = df.nrows

/-- Count of null cells (isnull().sum()). -/
def ColData.nullCount : ColData → ℕ
  | .numeric xs => (xs.filter fun x => x.isNone).length
  | .categorical xs => (xs.filter fun x => x.isNone).length

/-- Count of non-null cells. -/
def ColData.nonNullCount : ColData → ℕ
  | .numeric xs => (xs.filterMap id).length
  | .categorical xs => (xs.filterMap id).length

/-- Count of distinct non-null values (nunique()). -/
def ColData.nunique : ColData → ℕ
  | .numeric xs => (xs.filterMap id).dedup.length
  | .categorical xs => (xs.filterMap id).dedup.length

/-- The pandas dtype string of a column in this model: numeric frames are
modelled with float64 columns, object frames with object columns. -/
def ColData.dtypeStr : ColData → String
  | .numeric _ => "float64"
  | .categorical _ => "object"

/-- str of the first MAX_SAMPLE_VALUES non-null values (tolist() then str). -/
def ColData.sampleValuesStr : ColData → String
  | .numeric xs => pyListStr (((xs.filterMap id).take MAX_SAMPLE_VALUES).map ratStr)
  | .categorical xs =>
      pyListStr (((xs.filterMap id).take MAX_SAMPLE_VALUES).map
        fun s => "\x27" ++ s ++ "\x27")

/-! ## The generation collaborator (DSPy signatures as an oracle record) -/

structure SchemaInterpreterIn where
  column_name : String
  pandas_dtype : String
  null_count : String
  unique_count : String
  total_count : String
  sample_values : String
deriving DecidableEq

structure SchemaInterpreterOut where
  business_type : String
  confidence : String
  reasoning : String
  recommendation : String
deriving DecidableEq

structure StatisticalInsightIn where
  column_name : String
  column_type : String
  stats_dict : String
deriving DecidableEq

structure StatisticalInsightOut where
  insight : String
  pattern_detected : String
  actionable_suggestion : String
deriving DecidableEq

structure QualityRecommenderIn where
  issue_type : String
  column_name : String
  issue_description : String
  sample_data : String
deriving DecidableEq

structure QualityRecommenderOut where
  recommended_action : String
  python_code : String
  impact_description : String
deriving DecidableEq

structure MLUseCaseDetectorIn where
  dataset_overview : String
  key_columns : String
  quality_issues : String
deriving DecidableEq

structure MLUseCaseDetectorOut where
  detected_use_case : String
  target_variable : String
  target_reasoning : String
  suitability_score : String
  alternative_use_case : String
deriving DecidableEq

structure FeaturePlannerIn where
  column_summary : String
  target_variable : String
  ml_use_case : String
  planning_instructions : String
deriving DecidableEq

structure FeaturePlannerOut where
  feature_plan : String
  training_recommendations : String
  mlflow_setup : String
deriving DecidableEq

structure DeploymentPlannerIn where
  ml_use_case : String
  feature_plan : String
  training_plan : String
  data_summary : String
deriving DecidableEq

structure DeploymentPlannerOut where
  databricks_setup : String
  serving_strategy : String
  monitoring_plan : String
  data_strategy : String
  team_requirements : String
  implementation_roadmap : String
  risk_mitigation : String
  cost_estimation : String
  governance_framework : String
  success_metrics : String
  business_impact : String
  testing_framework : String
  operational_playbook : String
  enablement_plan : String
  future_enhancements : String
deriving DecidableEq

structure BusinessCommIn where
  ml_use_case : String
  deployment_summary : String
  technical_risks : String
  success_metrics : String
deriving DecidableEq

structure BusinessCommOut where
  executive_summary : String
  risk_matrix : String
  timeline_visual : String
  budget_justification : String
  stakeholder_talking_points : String
deriving DecidableEq

structure PRDIn where
  ml_use_case : String
  feature_engineering : String
  deployment_strategy : String
  business_summary : String
  quality_issues : String
deriving DecidableEq

structure PRDOut where
  prd_document : String
deriving DecidableEq

/-- The external generation collaborator: one opaque fallible function per
DSPy signature.  An .error result models an exception of any kind raised by
the call. -/
structure Gen where
  schemaInterpreter : SchemaInterpreterIn → Except String SchemaInterpreterOut
  insightGenerator : StatisticalInsightIn → Except String StatisticalInsightOut
  qualityRecommender : QualityRecommenderIn → Except String QualityRecommenderOut
  mlUseCaseDetector : MLUseCaseDetectorIn → Except String MLUseCaseDetectorOut
  featurePlanner : FeaturePlannerIn → Except String FeaturePlannerOut
  deploymentPlanner : DeploymentPlannerIn → Except String DeploymentPlannerOut
  businessCommGenerator : BusinessCommIn → Except String BusinessCommOut
  prdGenerator : PRDIn → Except String PRDOut

/-! ## SchemaAgent -/

/-- The per-column record returned by SchemaAgent._analyze_column. -/
structure ColumnSchema where
  column_name : String
  pandas_dtype : String
  null_count : ℕ
  null_percentage : ℚ
  unique_count : ℕ
  sample_values : String
  business_type : String
  confidence : String
  reasoning : String
  recommendation : String
deriving DecidableEq

structure SchemaSummary where
  total_columns : ℕ
  total_rows : ℕ
  memory_usage_mb : ℚ
deriving DecidableEq

structure SchemaResult where
  columns : List ColumnSchema
  summary : SchemaSummary
deriving DecidableEq

namespace SchemaAgent

/-- SchemaAgent._analyze_column.  The generation call is guarded by
try/except with fixed fallback values, so it never raises, but the
null_percentage expression null_count / total_count raises ZeroDivisionError
on a zero-row frame. -/
def analyzeColumn (gen : Gen) (df : DataFrame) (c : Col) :
    Except String ColumnSchema :=
  let pandas_dtype := c.data.dtypeStr
  let null_count := c.data.nullCount
  let unique_count := c.data.nunique
  let total_count := df.nrows
  let sample_values_str :=
    if c.data.nonNullCount > 0 then c.data.sampleValuesStr else "All null values"
  let itp : SchemaInterpreterOut :=
    match gen.schemaInterpreter
        ⟨c.name, pandas_dtype, toString null_count, toString unique_count,
         toString total_count, sample_values_str⟩ with
    | .ok o => o
    | .error e =>
        ⟨"Unknown", "low", "Error in LLM interpretation: " ++ e, "Review manually"⟩
  if total_count = 0 then .error "division by zero"
  else .ok
    { column_name := c.name
      pandas_dtype := pandas_dtype
      null_count := null_count
      null_percentage := pyRound2 ((null_count : ℚ) / total_count * 100)
      unique_count := unique_count
      sample_values := sample_values_str
      business_type := itp.business_type
      confidence := itp.confidence
      reasoning := itp.reasoning
      recommendation := itp.recommendation }

/-- Sequence the per-column analyses, stopping at the first raised
exception, as the Python for-loop does. -/
def mapColumns (gen : Gen) (df : DataFrame) :
    List Col → Except String (List ColumnSchema)
  | [] => .ok []
  | c :: rest =>
    match analyzeColumn gen df c with
    | .error e => .error e
    | .ok r =>
      match mapColumns gen df rest with
      | .error e => .error e
      | .ok rs => .ok (r :: rs)

/-- SchemaAgent.analyze. -/
def analyze (gen : Gen) (df : DataFrame) : Except String SchemaResult :=
  match mapColumns gen df df.cols with
  | .error e => .error e
  | .ok cols =>
      .ok ⟨cols, ⟨df.cols.length, df.nrows, (df.memBytes : ℚ) / 1024 ^ 2⟩⟩

end SchemaAgent

/-! ## ProfileAgent -/

/-- The non-null values of a numeric column (pandas statistics skip NaN). -/
def nonNull (xs : List (Option ℚ)) : List ℚ := xs.filterMap id

/-- The non-null values sorted ascending (pandas sorts before interpolating
quantiles). -/
def sortedNonNull (xs : List (Option ℚ)) : List ℚ :=
  List.insertionSort (· ≤ ·) (nonNull xs)

/-- The pandas quantile with linear interpolation, on an already sorted
nonempty list v: position h = p * (length - 1), lower index i = floor h,
fraction g = h - i, value v[i] + (v[i+1] - v[i]) * g (with v[i+1] read as
v[i] at the top end). -/
def quantileSorted (v : List ℚ) (p : ℚ) : ℚ :=
  let h : ℚ := p * ((v.length : ℚ) - 1)
  let i : ℤ := ⌊h⌋
  let g : ℚ := h - i
  let lo := v.getD i.toNat 0
  let hi := v.getD (i.toNat + 1) lo
  lo + (hi - lo) * g

/-- The value of Series.skew() (adjusted Fisher-Pearson, pandas nanskew).
nan models the NaN that pandas returns for fewer than 3 non-null
observations; ofRat is an exact rational value (pandas pins the result to 0
when the second moment is zero); moments n m2 m3 denotes the irrational
value n * sqrt (n - 1) / (n - 2) * m3 / m2 ^ (3 / 2), kept symbolically
since no downstream computation needs more than its comparisons with
rational thresholds. -/
inductive SkewVal where
  | nan : SkewVal
  | ofRat (q : ℚ) : SkewVal
  | moments (n : ℕ) (m2 m3 : ℚ) : SkewVal
deriving DecidableEq

/-- Series.skew(): NaN below 3 observations, 0 at zero variance, else the
adjusted Fisher-Pearson coefficient from the centered moment sums. -/
def skewness (xs : List (Option ℚ)) : SkewVal :=
  let nn := nonNull xs
  let n := nn.length
  if n < 3 then .nan
  else
    let m := nn.sum / n
    let m2 := (nn.map fun x => (x - m) ^ 2).sum
    let m3 := (nn.map fun x => (x - m) ^ 3).sum
    if m2 = 0 then .ofRat 0 else .moments n m2 m3

/-- Rendering of a skewness value where Python would print the float
(prompt payload only). -/
def SkewVal.render : SkewVal → String
  | .nan => "nan"
  | .ofRat q => ratStr q
  | .moments n m2 m3 =>
      "skew(" ++ toString n ++ ", " ++ ratStr m2 ++ ", " ++ ratStr m3 ++ ")"

/-- The pattern branch of _analyze_numeric_column:
abs(skew) < 0.5 gives normal, skew > 0.5 right skewed, else left skewed.
For NaN both float comparisons are false, landing in the left-skewed arm.
For a moments value the comparisons against 1/2 are decided exactly by
comparing the square n^2 (n-1) m3^2 / ((n-2)^2 m2^3) with 1/4 and the sign
of m3. -/
def patternOf : SkewVal → String
  | .nan => "left skewed"
  | .ofRat s =>
      if |s| < 1/2 then "normal distribution"
      else if s > 1/2 then "right skewed"
      else "left skewed"
  | .moments n m2 m3 =>
      let sq : ℚ := (n : ℚ) ^ 2 * ((n : ℚ) - 1) * m3 ^ 2 / (((n : ℚ) - 2) ^ 2 * m2 ^ 3)
      if sq < 1/4 then "normal distribution"
      else if 0 < m3 ∧ 1/4 < sq then "right skewed"
      else "left skewed"

/-- The per-column record returned by ProfileAgent._analyze_numeric_column.
Option fields are none exactly where pandas describe() yields NaN.  The
source stores the sample standard deviation; std_sq keeps its exact square
(ddof = 1 variance), which carries the same information over the rationals. -/
structure NumericColStats where
  column_name : String
  mean : Option ℚ
  median : Option ℚ
  std_sq : Option ℚ
  min : Option ℚ
  max : Option ℚ
  q25 : Option ℚ
  q75 : Option ℚ
  skewness : SkewVal
  pattern_detected : String
  insight : String
  actionable_suggestion : String
deriving DecidableEq

/-- The per-column record returned by ProfileAgent._analyze_categorical_column. -/
structure CategoricalColStats where
  column_name : String
  cardinality : ℕ
  top_value : String
  top_frequency : ℕ
  top_5 : List (String × ℕ)
  pattern_detected : String
  insight : String
  actionable_suggestion : String
deriving DecidableEq

structure ProfileResult where
  numeric_analysis : List NumericColStats
  categorical_analysis : List CategoricalColStats
deriving DecidableEq

/-- pandas value_counts() on the non-null values: distinct values with their
frequencies, sorted by frequency descending, ties kept in first-encounter
order (insertionSort is stable). -/
def valueCounts (xs : List String) : List (String × ℕ) :=
  let uniq := xs.dedup
  let counted := uniq.map fun v => (v, xs.count v)
  List.insertionSort (fun a b => b.2 ≤ a.2) counted

/-- Rendering of an optional rational where Python prints a float that is
NaN when the statistic is undefined (prompt payload only). -/
def optStr : Option ℚ → String
  | none => "nan"
  | some q => ratStr q

namespace ProfileAgent

def renderNumStatsDict (mean_v median_v std_sq_v min_v max_v q25_v q75_v :
    Option ℚ) (skew : SkewVal) : String :=
  pyDictStr
    [("mean", optStr mean_v), ("median", optStr median_v),
     ("std", "sqrt(" ++ optStr std_sq_v ++ ")"),
     ("min", optStr min_v), ("max", optStr max_v),
     ("skewness", skew.render),
     ("q25", optStr q25_v), ("q75", optStr q75_v)]

/-- ProfileAgent._analyze_numeric_column. -/
def analyzeNumericColumn (gen : Gen) (name : String) (xs : List (Option ℚ)) :
    NumericColStats :=
  let nn := nonNull xs
  let v := List.insertionSort (· ≤ ·) nn
  let n := nn.length
  let mean_v : Option ℚ := if n = 0 then none else some (nn.sum / n)
  let median_v : Option ℚ := if n = 0 then none else some (quantileSorted v (1/2))
  let std_sq_v : Option ℚ :=
    if n < 2 then none
    else some ((nn.map fun x => (x - nn.sum / n) ^ 2).sum / ((n : ℚ) - 1))
  let min_v : Option ℚ := v.head?
  let max_v : Option ℚ := v.getLast?
  let q25_v : Option ℚ := if n = 0 then none else some (quantileSorted v (1/4))
  let q75_v : Option ℚ := if n = 0 then none else some (quantileSorted v (3/4))
  let skew := skewness xs
  let pattern := patternOf skew
  let stats_dict :=
    renderNumStatsDict mean_v median_v std_sq_v min_v max_v q25_v q75_v skew
  let llm : String × String × String :=
    match gen.insightGenerator ⟨name, "numeric", stats_dict⟩ with
    | .ok o => (o.insight, o.pattern_detected, o.actionable_suggestion)
    | .error e =>
        ("Error generating insight: " ++ e, pattern, "Review statistics manually")
  { column_name := name
    mean := mean_v
    median := median_v
    std_sq := std_sq_v
    min := min_v
    max := max_v
    q25 := q25_v
    q75 := q75_v
    skewness := skew
    pattern_detected := llm.2.1
    insight := llm.1
    actionable_suggestion := llm.2.2 }

/-- ProfileAgent._analyze_categorical_column. -/
def analyzeCategoricalColumn (gen : Gen) (name : String)
    (xs : List (Option String)) : CategoricalColStats :=
  let nn := xs.filterMap id
  let vc := valueCounts nn
  let cardinality := vc.length
  let total_count := nn.length
  let top_value := match vc.head? with | none => "N/A" | some kv => kv.1
  let top_frequency := match vc.head? with | none => 0 | some kv => kv.2
  let top_5 := vc.take 5
  let stats_dict := pyDictStr
    [("cardinality", toString cardinality),
     ("total_count", toString total_count),
     ("top_value", "\x27" ++ top_value ++ "\x27"),
     ("top_frequency", toString top_frequency),
     ("top_5_values",
        "\x27" ++ pyListStr (top_5.map fun kv =>
          "(\x27" ++ kv.1 ++ "\x27, " ++ toString kv.2 ++ ")") ++ "\x27")]
  let llm : String × String × String :=
    match gen.insightGenerator ⟨name, "categorical", stats_dict⟩ with
    | .ok o => (o.insight, o.pattern_detected, o.actionable_suggestion)
    | .error e =>
        ("Error generating insight: " ++ e, "unknown", "Review distribution manually")
  { column_name := name
    cardinality := cardinality
    top_value := top_value
    top_frequency := top_frequency
    top_5 := top_5
    pattern_detected := llm.2.1
    insight := llm.1
    actionable_suggestion := llm.2.2 }

/-- ProfileAgent.analyze: numeric columns via select_dtypes(number), then
object columns via select_dtypes(object, category), each in frame order. -/
def analyze (gen : Gen) (df : DataFrame) : ProfileResult :=
  { numeric_analysis := df.cols.filterMap fun c =>
      match c.data with
      | .numeric xs => some (analyzeNumericColumn gen c.name xs)
      | .categorical _ => none
    categorical_analysis := df.cols.filterMap fun c =>
      match c.data with
      | .numeric _ => none
      | .categorical xs => some (analyzeCategoricalColumn gen c.name xs) }

end ProfileAgent

/-! ## QualityAgent -/

/-- One cell of a row, numeric or string, none for a null. -/
abbrev Cell := Option (ℚ ⊕ String)

def Col.cellAt (c : Col) (i : ℕ) : Cell :=
  match c.data with
  | .numeric xs => (xs.getD i none).map Sum.inl
  | .categorical xs => (xs.getD i none).map Sum.inr

/-- The i-th row of the frame. -/
def DataFrame.row (df : DataFrame) (i : ℕ) : List Cell :=
  df.cols.map fun c => c.cellAt i

/-- Boolean list membership (structural helper). -/
def memB {α : Type} [DecidableEq α] (a : α) : List α → Bool
  | [] => false
  | b :: l => if a = b then true else memB a l

/-- The duplicated() flags: a row is flagged when an equal row occurred
earlier (first occurrence not counted; pandas treats equal nulls as equal
here). -/
def dupFlagsAux : List (List Cell) → List (List Cell) → List Bool
  | _, [] => []
  | seen, r :: rest => memB r seen :: dupFlagsAux (r :: seen) rest

def DataFrame.rows (df : DataFrame) : List (List Cell) :=
  (List.range df.nrows).map df.row

def DataFrame.dupFlags (df : DataFrame) : List Bool :=
  dupFlagsAux [] df.rows

/-- df.duplicated().sum(). -/
def DataFrame.dupCount (df : DataFrame) : ℕ :=
  (df.dupFlags.filter id).length

/-- Rendering of a cell where Python prints the value (prompt payload). -/
def cellStr : Cell → String
  | none => "nan"
  | some (.inl q) => ratStr q
  | some (.inr s) => "\x27" ++ s ++ "\x27"

/-- Python str.lower().str.strip(); ASCII approximation of the Python
case-folding and whitespace trimming. -/
def pyLowerStrip (s : String) : String := s.toLower.trim

/-- One entry of the issues_found list.  The Python dicts carry different
key sets per issue type: percentage is absent for inconsistent_categories
and bounds is present only for outliers, modelled by Option fields. -/
structure QualityIssue where
  type : String
  column : String
  severity : String
  description : String
  count : ℕ
  percentage : Option ℚ
  bounds : Option (ℚ × ℚ)
  recommended_action : String
  code_snippet : String
  impact : String
deriving DecidableEq

/-- The summary dict: initialized with the three named severity counters;
an unexpected severity key would be added to the dict by self-keyed
assignment with .get fallback, modelled by the extra association list (none
of the checks ever produces such a key). -/
structure QualitySummary where
  total_issues : ℕ
  critical : ℕ
  warnings : ℕ
  info : ℕ
  extra : List (String × ℕ)
deriving DecidableEq

def bumpAssoc : List (String × ℕ) → String → List (String × ℕ)
  | [], k => [(k, 1)]
  | (k0, v) :: rest, k =>
      if k0 = k then (k0, v + 1) :: rest else (k0, v) :: bumpAssoc rest k

/-- summary[severity] = summary.get(severity, 0) + 1. -/
def QualitySummary.bump (s : QualitySummary) (sev : String) : QualitySummary :=
  if sev = "critical" then { s with critical := s.critical + 1 }
  else if sev = "warnings" then { s with warnings := s.warnings + 1 }
  else if sev = "info" then { s with info := s.info + 1 }
  else { s with extra := bumpAssoc s.extra sev }

/-- One iteration of the summary update loop: increment total_issues and the
counter of the severity of the issue. -/
def summaryStep (s : QualitySummary) (i : QualityIssue) : QualitySummary :=
  QualitySummary.bump { s with total_issues := s.total_issues + 1 } i.severity

/-- The update loop over issues_found. -/
def foldSummary (issues : List QualityIssue) : QualitySummary :=
  issues.foldl summaryStep ⟨0, 0, 0, 0, []⟩

structure QualityResult where
  issues_found : List QualityIssue
  summary : QualitySummary
deriving DecidableEq

namespace QualityAgent

/-- The severity ladder of _check_missing_values (unrounded percentage). -/
def missingSeverity (null_pct : ℚ) : String :=
  if null_pct > 50 then "critical"
  else if null_pct > 20 then "warnings"
  else "info"

/-- The severity choice of _check_duplicates (unrounded percentage). -/
def dupSeverity (dup_pct : ℚ) : String :=
  if dup_pct > 5 then "warnings" else "info"

/-- The severity choice of _check_outliers (unrounded percentage). -/
def outlierSeverity (outlier_pct : ℚ) : String :=
  if outlier_pct > 10 then "warnings" else "info"

/-- str of the first k non-null values of a column (prompt payload). -/
def sampleHeadStr (k : ℕ) : ColData → String
  | .numeric xs => pyListStr (((xs.filterMap id).take k).map ratStr)
  | .categorical xs =>
      pyListStr (((xs.filterMap id).take k).map fun s => "\x27" ++ s ++ "\x27")

/-- QualityAgent._check_missing_values. -/
def checkMissingValues (gen : Gen) (df : DataFrame) : List QualityIssue :=
  df.cols.filterMap fun c =>
    let null_count : ℕ := c.data.nullCount
    if null_count > 0 then
      let null_pct : ℚ := (null_count : ℚ) / df.nrows * 100
      let severity := missingSeverity null_pct
      let issue_desc := toString null_count ++ " missing values (" ++
        fmtFixed 1 null_pct ++ "%) in column \x27" ++ c.name ++ "\x27"
      let sample_data := sampleHeadStr 3 c.data
      let llm : String × String × String :=
        match gen.qualityRecommender ⟨"missing_values", c.name, issue_desc, sample_data⟩ with
        | .ok o => (o.recommended_action, o.python_code, o.impact_description)
        | .error _ =>
            ("Impute with median/mode or drop rows",
             "df[\x27" ++ c.name ++ "\x27].fillna(df[\x27" ++ c.name ++
               "\x27].median(), inplace=True)",
             "Fill missing values")
      some
        { type := "missing_values"
          column := c.name
          severity := severity
          description := issue_desc
          count := null_count
          percentage := some (pyRound2 null_pct)
          bounds := none
          recommended_action := llm.1
          code_snippet := llm.2.1
          impact := llm.2.2 }
    else none

/-- str(df[df.duplicated()].head(2).to_dict()); abbreviated structural
rendering of the first two duplicated rows (prompt payload only). -/
def dupSampleStr (df : DataFrame) : String :=
  pyListStr ((((df.rows.zip df.dupFlags).filter fun rf => rf.2).take 2).map
    fun rf => pyListStr (rf.1.map cellStr))

/-- QualityAgent._check_duplicates. -/
def checkDuplicates (gen : Gen) (df : DataFrame) : List QualityIssue :=
  let dup_count := df.dupCount
  if dup_count > 0 then
    let dup_pct : ℚ := (dup_count : ℚ) / df.nrows * 100
    let severity := dupSeverity dup_pct
    let issue_desc := toString dup_count ++ " duplicate rows (" ++
      fmtFixed 1 dup_pct ++ "%)"
    let llm : String × String × String :=
      match gen.qualityRecommender ⟨"duplicates", "entire_row", issue_desc, dupSampleStr df⟩ with
      | .ok o => (o.recommended_action, o.python_code, o.impact_description)
      | .error _ =>
          ("Remove duplicate rows", "df.drop_duplicates(inplace=True)",
           "Remove " ++ toString dup_count ++ " duplicate rows")
    [{ type := "duplicates"
       column := "entire_row"
       severity := severity
       description := issue_desc
       count := dup_count
       percentage := some (pyRound2 dup_pct)
       bounds := none
       recommended_action := llm.1
       code_snippet := llm.2.1
       impact := llm.2.2 }]
  else []

/-- QualityAgent._check_outliers: Tukey fences on each numeric column.  On a
column with no non-null values the pandas quantiles are NaN, every
comparison is false and no issue is emitted, which coincides with the empty
filter result here. -/
def checkOutliers (gen : Gen) (df : DataFrame) : List QualityIssue :=
  df.cols.filterMap fun c =>
    match c.data with
    | .categorical _ => none
    | .numeric xs =>
      let nn := nonNull xs
      let v := List.insertionSort (· ≤ ·) nn
      if v.isEmpty then none
      else
        let q1 := quantileSorted v (1/4)
        let q3 := quantileSorted v (3/4)
        let iqr := q3 - q1
        let lower_bound := q1 - 3/2 * iqr
        let upper_bound := q3 + 3/2 * iqr
        let outliers := nn.filter fun x => decide (x < lower_bound) || decide (x > upper_bound)
        let outlier_count := outliers.length
        if outlier_count > 0 then
          let outlier_pct : ℚ := (outlier_count : ℚ) / df.nrows * 100
          let severity := outlierSeverity outlier_pct
          let issue_desc := toString outlier_count ++ " outliers (" ++
            fmtFixed 1 outlier_pct ++ "%) in \x27" ++ c.name ++ "\x27 (outside [" ++
            fmtFixed 2 lower_bound ++ ", " ++ fmtFixed 2 upper_bound ++ "])"
          let sample_data := pyListStr ((outliers.take 3).map ratStr)
          let llm : String × String × String :=
            match gen.qualityRecommender ⟨"outliers", c.name, issue_desc, sample_data⟩ with
            | .ok o => (o.recommended_action, o.python_code, o.impact_description)
            | .error _ =>
                ("Cap outliers or flag for investigation",
                 "df[\x27" ++ c.name ++ "\x27] = df[\x27" ++ c.name ++
                   "\x27].clip(lower=" ++ fmtFixed 2 lower_bound ++ ", upper=" ++
                   fmtFixed 2 upper_bound ++ ")",
                 "Cap extreme values")
          some
            { type := "outliers"
              column := c.name
              severity := severity
              description := issue_desc
              count := outlier_count
              percentage := some (pyRound2 outlier_pct)
              bounds := some (pyRound2 lower_bound, pyRound2 upper_bound)
              recommended_action := llm.1
              code_snippet := llm.2.1
              impact := llm.2.2 }
        else none

/-- QualityAgent._check_categorical_consistency. -/
def checkCategoricalConsistency (gen : Gen) (df : DataFrame) : List QualityIssue :=
  df.cols.filterMap fun c =>
    match c.data with
    | .numeric _ => none
    | .categorical xs =>
      let nn := xs.filterMap id
      let vc := valueCounts nn
      let unique_count := vc.length
      if unique_count > 1 ∧ unique_count < 100 then
        let normalized_unique := (nn.map pyLowerStrip).dedup.length
        if normalized_unique < unique_count then
          let diff := unique_count - normalized_unique
          let issue_desc := "\x27" ++ c.name ++ "\x27 has " ++ toString diff ++
            " inconsistent values (case/whitespace issues)"
          let sample_data := pyDictStr ((vc.take 5).map
            fun kv => ("\x27" ++ kv.1 ++ "\x27", toString kv.2))
          let llm : String × String × String :=
            match gen.qualityRecommender
                ⟨"inconsistent_categories", c.name, issue_desc, sample_data⟩ with
            | .ok o => (o.recommended_action, o.python_code, o.impact_description)
            | .error _ =>
                ("Standardize categorical values",
                 "df[\x27" ++ c.name ++ "\x27] = df[\x27" ++ c.name ++
                   "\x27].str.lower().str.strip()",
                 "Reduce " ++ toString diff ++ " redundant categories")
          some
            { type := "inconsistent_categories"
              column := c.name
              severity := "info"
              description := issue_desc
              count := diff
              percentage := none
              bounds := none
              recommended_action := llm.1
              code_snippet := llm.2.1
              impact := llm.2.2 }
        else none
      else none

/-- QualityAgent.analyze: the four checks in order, then the summary fold. -/
def analyze (gen : Gen) (df : DataFrame) : QualityResult :=
  let issues :=
    checkMissingValues gen df ++ checkDuplicates gen df ++
    checkOutliers gen df ++ checkCategoricalConsistency gen df
  ⟨issues, foldSummary issues⟩

end QualityAgent

/-! ## MLAdvisorAgent -/

structure MLUseCase where
  detected_use_case : String
  target_variable : String
  target_reasoning : String
  suitability_score : String
  alternative_use_case : String
deriving DecidableEq

structure FeatureEngineering where
  feature_plan : String
  training_recommendations : String
  mlflow_setup : String
deriving DecidableEq

structure MLRecommendations where
  ml_use_case : MLUseCase
  feature_engineering : FeatureEngineering
deriving DecidableEq

/-- Whether the first list is an initial segment of the second. -/
def listPrefixB {α : Type} [DecidableEq α] : List α → List α → Bool
  | [], _ => true
  | _ :: _, [] => false
  | a :: as, b :: bs => if a = b then listPrefixB as bs else false

/-- Whether the first list occurs contiguously inside the second. -/
def listInfixB {α : Type} [DecidableEq α] (needle : List α) : List α → Bool
  | [] => listPrefixB needle []
  | b :: rest => if listPrefixB needle (b :: rest) then true else listInfixB needle rest

/-- Python substring containment (the in operator on str). -/
def containsSub (needle hay : String) : Bool :=
  listInfixB needle.toList hay.toList

/-- Python str slicing s[:n]. -/
def pyTake (n : ℕ) (s : String) : String :=
  String.mk (s.toList.take n)

namespace MLAdvisorAgent

/-- The shared markdown planning template of _get_use_case_instructions. -/
def instructionsBase : String :=
  "You are an expert data scientist. Generate a clear, step-by-step ML plan in MARKDOWN FORMAT:\n\n" ++
  "    ## 1. Data Preparation\n" ++
  "    - Train/validation/test splits (ratios)\n" ++
  "    - Preprocessing steps\n" ++
  "    - Feature transformations\n\n" ++
  "    ## 2. Model Training\n" ++
  "    - Baseline model (specify)\n" ++
  "    - Advanced models (specify algorithms)\n" ++
  "    - Training sequence\n\n" ++
  "    ## 3. Evaluation & Validation\n" ++
  "    - Primary metrics (specify)\n" ++
  "    - Cross-validation strategy\n" ++
  "    - Holdout evaluation approach\n\n" ++
  "    ## 4. Hyperparameter Tuning\n" ++
  "    - Key parameters to tune\n" ++
  "    - Search strategy (grid/random/bayesian)\n\n" ++
  "    ## 5. MLflow Tracking\n" ++
  "    - Experiment setup code\n" ++
  "    - Parameters and metrics to log\n" ++
  "    - Artifact storage plan\n\n" ++
  "    ## 6. Deployment & Monitoring\n" ++
  "    - Model serialization format\n" ++
  "    - Monitoring metrics\n" ++
  "    - Retraining triggers\n\n" ++
  "    Use markdown headers (##), bullet points (-), keep responses concise and actionable."

/-- _get_use_case_instructions: case-insensitive substring dispatch on the
detected use case, with a generic default arm. -/
def getUseCaseInstructions (use_case : String) : String :=
  let use_case_lower := use_case.toLower
  if containsSub "classification" use_case_lower then
    instructionsBase ++
      "\n\n**Classification Focus:** Include class imbalance handling, precision/recall tradeoffs, ROC-AUC, confusion matrix analysis."
  else if containsSub "regression" use_case_lower then
    instructionsBase ++
      "\n\n**Regression Focus:** Emphasize RMSE, MAE, R², residual analysis, outlier detection and handling."
  else if containsSub "clustering" use_case_lower then
    instructionsBase ++
      "\n\n**Clustering Focus:** Include silhouette score, elbow method, feature scaling requirements, cluster interpretation."
  else instructionsBase

/-- _create_dataset_overview. -/
def createDatasetOverview (schema_results : SchemaResult) : String :=
  "Dataset: " ++ toString schema_results.summary.total_rows ++ " rows, " ++
  toString schema_results.summary.total_columns ++ " columns, " ++
  fmtFixed 1 schema_results.summary.memory_usage_mb ++ "MB"

/-- _extract_key_columns (the profile argument is accepted but unused, as in
the source). -/
def extractKeyColumns (schema_results : SchemaResult)
    (_profile_results : ProfileResult) : String :=
  String.intercalate "; " ((schema_results.columns.take 10).map fun col =>
    col.column_name ++ " (" ++ col.business_type ++ ", " ++
    ratStr col.null_percentage ++ "% nulls, " ++ toString col.unique_count ++
    " unique)")

/-- _summarize_quality_issues. -/
def summarizeQualityIssues (quality_results : QualityResult) : String :=
  let s := quality_results.summary
  if s.total_issues = 0 then "No quality issues detected"
  else
    toString s.total_issues ++ " issues found: " ++ toString s.critical ++
    " critical, " ++ toString s.warnings ++ " warnings"

/-- _create_column_summary: at most 15 columns; note that the source
compares unique_count against the length of the truncated column list for
the unique-identifier annotation. -/
def createColumnSummary (schema_results : SchemaResult)
    (_profile_results : ProfileResult) : String :=
  let columns := schema_results.columns.take 15
  String.intercalate "\n" (columns.map fun col =>
    let line := "- " ++ col.column_name ++ ": " ++ col.business_type ++ ", " ++
      col.pandas_dtype
    let line :=
      if col.unique_count < 20 then
        line ++ ", " ++ toString col.unique_count ++ " categories"
      else if col.unique_count = columns.length then line ++ ", unique identifier"
      else line
    if col.null_percentage > 5 then
      line ++ ", " ++ ratStr col.null_percentage ++ "% nulls"
    else line)

/-- The inputs of the first generation call (use-case detection). -/
def detectorInputs (schema_results : SchemaResult)
    (profile_results : ProfileResult) (quality_results : QualityResult) :
    MLUseCaseDetectorIn :=
  ⟨createDatasetOverview schema_results,
   extractKeyColumns schema_results profile_results,
   summarizeQualityIssues quality_results⟩

/-- The inputs of the second generation call (feature planning); the target
variable and detected use case flow forward from the first call or from its
fallback sentinels. -/
def plannerInputs (schema_results : SchemaResult)
    (profile_results : ProfileResult)
    (target_variable detected_use_case : String) : FeaturePlannerIn :=
  ⟨createColumnSummary schema_results profile_results, target_variable,
   detected_use_case, getUseCaseInstructions detected_use_case⟩

/-- MLAdvisorAgent.analyze: two sequential generation calls, each guarded by
its own try/except with stage-appropriate sentinel fallbacks. -/
def analyze (gen : Gen) (schema_results : SchemaResult)
    (profile_results : ProfileResult) (quality_results : QualityResult) :
    MLRecommendations :=
  let det : MLUseCaseDetectorOut :=
    match gen.mlUseCaseDetector
        (detectorInputs schema_results profile_results quality_results) with
    | .ok o => o
    | .error e => ⟨"Unable to detect", "Unknown", "Error: " ++ e, "0", "N/A"⟩
  let fe : FeatureEngineering :=
    match gen.featurePlanner
        (plannerInputs schema_results profile_results det.target_variable
          det.detected_use_case) with
    | .ok p => ⟨p.feature_plan, p.training_recommendations, p.mlflow_setup⟩
    | .error e =>
        ⟨"Error generating plan: " ++ e, "Unable to generate recommendations",
         "Unable to generate MLflow recommendations"⟩
  ⟨⟨det.detected_use_case, det.target_variable, det.target_reasoning,
    det.suitability_score, det.alternative_use_case⟩, fe⟩

end MLAdvisorAgent

/-! ## DeploymentAgent and BusinessCommunicationAgent -/

namespace DeploymentAgent

/-- _format_ml_use_case. -/
def formatMlUseCase (ml_recommendations : MLRecommendations) : String :=
  let u := ml_recommendations.ml_use_case
  u.detected_use_case ++ " | Target: " ++ u.target_variable ++ " | Score: " ++
    u.suitability_score ++ "/100"

/-- _format_data_summary. -/
def formatDataSummary (schema_results : SchemaResult) : String :=
  toString schema_results.summary.total_rows ++ " rows, " ++
  toString schema_results.summary.total_columns ++ " columns, " ++
  fmtFixed 1 schema_results.summary.memory_usage_mb ++ "MB"

/-- _generate_error_response. -/
def generateErrorResponse (error : String) : DeploymentPlannerOut :=
  { databricks_setup := "Error: " ++ error
    serving_strategy := "Unable to generate"
    monitoring_plan := "Unable to generate"
    data_strategy := "Unable to generate"
    team_requirements := "Unable to generate"
    implementation_roadmap := "Unable to generate"
    risk_mitigation := "Unable to generate"
    cost_estimation := "Unable to generate"
    governance_framework := "Unable to generate"
    success_metrics := "Unable to generate"
    business_impact := "Unable to generate"
    testing_framework := "Unable to generate"
    operational_playbook := "Unable to generate"
    enablement_plan := "Unable to generate"
    future_enhancements := "Unable to generate" }

/-- DeploymentAgent.analyze: the returned dict carries exactly the fifteen
planner output fields, so the success arm is the planner output itself. -/
def analyze (gen : Gen) (schema_results : SchemaResult)
    (ml_recommendations : MLRecommendations) : DeploymentPlannerOut :=
  match gen.deploymentPlanner
      ⟨formatMlUseCase ml_recommendations,
       ml_recommendations.feature_engineering.feature_plan,
       ml_recommendations.feature_engineering.training_recommendations,
       formatDataSummary schema_results⟩ with
  | .ok o => o
  | .error e => generateErrorResponse e

end DeploymentAgent

namespace BusinessCommunicationAgent

/-- _format_ml_use_case. -/
def formatMlUseCase (ml_recommendations : MLRecommendations) : String :=
  let u := ml_recommendations.ml_use_case
  u.detected_use_case ++ " targeting " ++ u.target_variable ++
    " (Readiness: " ++ u.suitability_score ++ "/100)"

/-- _format_deployment_summary (the .get defaults of the source are dead:
every deployment record carries all fifteen keys). -/
def formatDeploymentSummary (deployment_strategy : DeploymentPlannerOut) : String :=
  "Team: " ++ pyTake 100 deployment_strategy.team_requirements ++
  "... | Timeline: " ++ pyTake 100 deployment_strategy.implementation_roadmap ++
  "... | Costs: " ++ pyTake 100 deployment_strategy.cost_estimation ++ "..."

/-- _generate_error_response. -/
def generateErrorResponse (error : String) : BusinessCommOut :=
  { executive_summary := "Error: " ++ error
    risk_matrix := "Unable to generate"
    timeline_visual := "Unable to generate"
    budget_justification := "Unable to generate"
    stakeholder_talking_points := "Unable to generate" }

/-- BusinessCommunicationAgent.analyze. -/
def analyze (gen : Gen) (ml_recommendations : MLRecommendations)
    (deployment_strategy : DeploymentPlannerOut) : BusinessCommOut :=
  match gen.businessCommGenerator
      ⟨formatMlUseCase ml_recommendations,
       formatDeploymentSummary deployment_strategy,
       deployment_strategy.risk_mitigation,
       deployment_strategy.success_metrics⟩ with
  | .ok o => o
  | .error e => generateErrorResponse e

end BusinessCommunicationAgent

/-! ## POAgent and the Supervisor -/

structure PrdResult where
  prd_document : String
  status : String
deriving DecidableEq

namespace POAgent

def formatMlUseCase (ml : MLRecommendations) : String :=
  let u := ml.ml_use_case
  "\n**Use Case**: " ++ u.detected_use_case ++
  "\n**Target Variable**: " ++ u.target_variable ++
  "\n**ML Readiness**: " ++ u.suitability_score ++ "/100" ++
  "\n**Reasoning**: " ++ u.target_reasoning ++
  "\n**Alternative**: " ++ u.alternative_use_case ++ "\n"

def formatFeatureEngineering (ml : MLRecommendations) : String :=
  let fe := ml.feature_engineering
  "\n**Feature Plan**:\n" ++ pyTake 500 fe.feature_plan ++
  "...\n\n**Training Strategy**:\n" ++ fe.training_recommendations ++
  "\n\n**MLflow Setup**:\n" ++ fe.mlflow_setup ++ "\n"

def formatDeploymentSummary (d : DeploymentPlannerOut) : String :=
  "\n**Team Requirements**: " ++ pyTake 300 d.team_requirements ++
  "...\n**Timeline**: " ++ pyTake 300 d.implementation_roadmap ++
  "...\n**Costs**: " ++ pyTake 300 d.cost_estimation ++
  "...\n**Infrastructure**: " ++ pyTake 300 d.databricks_setup ++
  "...\n**Monitoring**: " ++ pyTake 200 d.monitoring_plan ++ "...\n"

def formatBusinessSummary (b : BusinessCommOut) : String :=
  "\n**Executive Summary**: " ++ pyTake 400 b.executive_summary ++
  "...\n**ROI Justification**: " ++ pyTake 300 b.budget_justification ++
  "...\n**Success Metrics**: " ++ pyTake 200 b.stakeholder_talking_points ++ "...\n"

def formatQualityIssues (q : QualityResult) : String :=
  "\n**Total Issues**: " ++ toString q.summary.total_issues ++
  "\n**Critical**: " ++ toString q.summary.critical ++
  "\n**Warnings**: " ++ toString q.summary.warnings ++
  "\n**Info**: " ++ toString q.summary.info ++ "\n"

/-- POAgent.generate_prd: one generation call guarded by try/except with a
structured error payload. -/
def generatePrd (gen : Gen) (schema_results : SchemaResult)
    (quality_results : QualityResult) (ml_recommendations : MLRecommendations)
    (deployment_strategy : DeploymentPlannerOut)
    (business_communication : BusinessCommOut) : PrdResult :=
  let _ := schema_results
  match gen.prdGenerator
      ⟨formatMlUseCase ml_recommendations,
       formatFeatureEngineering ml_recommendations,
       formatDeploymentSummary deployment_strategy,
       formatBusinessSummary business_communication,
       formatQualityIssues quality_results⟩ with
  | .ok o => ⟨o.prd_document, "success"⟩
  | .error e => ⟨"# PRD Generation Failed\n\nError: " ++ e, "error"⟩

end POAgent

/-- The top-level aggregate dict of SupervisorAgent.analyze_dataset.  A none
field is an entry still holding its initial None (Python truthiness of the
gates coincides with isSome because every produced stage dict is nonempty). -/
structure PipelineResult where
  status : String
  agents_completed : List String
  schema_analysis : Option SchemaResult
  profile_analysis : Option ProfileResult
  quality_analysis : Option QualityResult
  ml_recommendations : Option MLRecommendations
  deployment_strategy : Option DeploymentPlannerOut
  business_communication : Option BusinessCommOut
  errors : List String
deriving DecidableEq

namespace SupervisorAgent

def initResult : PipelineResult :=
  ⟨"in_progress", [], none, none, none, none, none, none, []⟩

/-- The six stage steps of analyze_dataset, before the final status update.
Each stage body other than SchemaAgent.analyze is total in this embedding,
so the corresponding supervisor-level try/except never fires and the
success arm is taken directly. -/
def runStages (gen : Gen) (df : DataFrame) : PipelineResult :=
  let r0 := initResult
  let r1 :=
    match SchemaAgent.analyze gen df with
    | .ok s =>
        { r0 with schema_analysis := some s
                  agents_completed := r0.agents_completed ++ ["schema_agent"] }
    | .error e => { r0 with errors := r0.errors ++ ["Schema Agent failed: " ++ e] }
  let r2 :=
    { r1 with profile_analysis := some (ProfileAgent.analyze gen df)
              agents_completed := r1.agents_completed ++ ["profile_agent"] }
  let r3 :=
    { r2 with quality_analysis := some (QualityAgent.analyze gen df)
              agents_completed := r2.agents_completed ++ ["quality_agent"] }
  let r4 :=
    match r3.schema_analysis, r3.profile_analysis, r3.quality_analysis with
    | some s, some p, some q =>
        { r3 with ml_recommendations := some (MLAdvisorAgent.analyze gen s p q)
                  agents_completed := r3.agents_completed ++ ["ml_advisor_agent"] }
    | _, _, _ => r3
  let r5 :=
    match r4.ml_recommendations, r4.schema_analysis with
    | some m, some s =>
        { r4 with deployment_strategy := some (DeploymentAgent.analyze gen s m)
                  agents_completed := r4.agents_completed ++ ["deployment_agent"] }
    | some _, none =>
        -- unreachable: ml_recommendations is only set when schema_analysis is
        -- present; in the source this would be the caught subscript error
        { r4 with errors := r4.errors ++
            ["Deployment Agent failed: \x27NoneType\x27 object is not subscriptable"] }
    | none, _ => r4
  let r6 :=
    match r5.ml_recommendations, r5.deployment_strategy with
    | some m, some d =>
        { r5 with
            business_communication :=
              some (BusinessCommunicationAgent.analyze gen m d)
            agents_completed :=
              r5.agents_completed ++ ["business_communication_agent"] }
    | _, _ => r5
  r6

/-- SupervisorAgent.analyze_dataset: run the staged pipeline, then set the
final status from the error count. -/
def analyzeDataset (gen : Gen) (df : DataFrame) : PipelineResult :=
  let r := runStages gen df
  if r.errors.length = 0 then { r with status := "completed" }
  else { r with status := "partial_failure" }

/-- SupervisorAgent.generate_prd: gated on all five required cached results
(profile_analysis is not part of the gate); on insufficient data, a fixed
structured error result, with no generation call. -/
def generatePrd (gen : Gen) (results : PipelineResult) : PrdResult :=
  if h : results.schema_analysis.isSome ∧ results.quality_analysis.isSome ∧
      results.ml_recommendations.isSome ∧ results.deployment_strategy.isSome ∧
      results.business_communication.isSome then
    POAgent.generatePrd gen (results.schema_analysis.get h.1)
      (results.quality_analysis.get h.2.1)
      (results.ml_recommendations.get h.2.2.1)
      (results.deployment_strategy.get h.2.2.2.1)
      (results.business_communication.get h.2.2.2.2)
  else
    ⟨"# Error\n\nInsufficient data to generate PRD. Please complete all analysis steps first.",
     "error"⟩

end SupervisorAgent

/-! ## Concrete fixtures used by the verification -/

/-- A generation oracle whose every call fails. -/
def failGen : Gen :=
  ⟨fun _ => .error "LLM unavailable", fun _ => .error "LLM unavailable",
   fun _ => .error "LLM unavailable", fun _ => .error "LLM unavailable",
   fun _ => .error "LLM unavailable", fun _ => .error "LLM unavailable",
   fun _ => .error "LLM unavailable", fun _ => .error "LLM unavailable"⟩

/-- The scenario of the fallback property: every generation call fails. -/
def GenAllFail (gen : Gen) : Prop :=
  (∀ i, ∃ e, gen.schemaInterpreter i = Except.error e) ∧
  (∀ i, ∃ e, gen.insightGenerator i = Except.error e) ∧
  (∀ i, ∃ e, gen.qualityRecommender i = Except.error e) ∧
  (∀ i, ∃ e, gen.mlUseCaseDetector i = Except.error e) ∧
  (∀ i, ∃ e, gen.featurePlanner i = Except.error e) ∧
  (∀ i, ∃ e, gen.deploymentPlanner i = Except.error e) ∧
  (∀ i, ∃ e, gen.businessCommGenerator i = Except.error e) ∧
  (∀ i, ∃ e, gen.prdGenerator i = Except.error e)

/-- A one-column frame with zero rows. -/
def dfEmpty : DataFrame := ⟨0, 0, [⟨"a", .numeric []⟩]⟩

/-- A one-column frame with one row. -/
def dfOne : DataFrame := ⟨1, 100, [⟨"a", .numeric [some 1]⟩]⟩

/-- An empty schema stage record (fixture). -/
def sEx : SchemaResult := ⟨[], ⟨0, 0, 0⟩⟩

/-- An empty profile stage record (fixture). -/
def pEx : ProfileResult := ⟨[], []⟩

/-- An empty quality stage record (fixture). -/
def qEx : QualityResult := ⟨[], ⟨0, 0, 0, 0, []⟩⟩

/-- A fixture ML recommendation record. -/
def mlEx : MLRecommendations := ⟨⟨"c", "t", "r", "90", "alt"⟩, ⟨"fp", "tr", "mf"⟩⟩

/-- An oracle whose use-case detection fails while feature planning succeeds
with output that records its inputs. -/
def genDetFail : Gen :=
  { failGen with
    mlUseCaseDetector := fun _ => .error "boom"
    featurePlanner := fun inp =>
      .ok ⟨"plan targeting " ++ inp.target_variable ++ " for " ++ inp.ml_use_case,
           "train", "mlflow"⟩ }

/-- A fixture deployment record. -/
def depEx : DeploymentPlannerOut := DeploymentAgent.generateErrorResponse "x"

/-- A cached pipeline result missing its business-communication entry. -/
def rMissing : PipelineResult :=
  ⟨"completed", [], some sEx, none, some qEx, some mlEx, some depEx, none, []⟩

/-! ## Helper lemmas: rounding -/

theorem roundHalfEven_eq_floor_or_succ (q : ℚ) :
    roundHalfEven q = ⌊q⌋ ∨ (roundHalfEven q = ⌊q⌋ + 1 ∧ 1/2 ≤ q - ⌊q⌋) := by
  simp only [roundHalfEven]
  split
  · exact Or.inl rfl
  · next h1 =>
    split
    · next h2 => exact Or.inr ⟨rfl, le_of_lt h2⟩
    · split
      · exact Or.inl rfl
      · exact Or.inr ⟨rfl, not_lt.mp h1⟩

theorem roundHalfEven_nonneg {q : ℚ} (h : 0 ≤ q) : 0 ≤ roundHalfEven q := by
  have hf : 0 ≤ ⌊q⌋ := Int.floor_nonneg.mpr h
  rcases roundHalfEven_eq_floor_or_succ q with h1 | ⟨h1, _⟩ <;> rw [h1] <;> omega

theorem roundHalfEven_le {q : ℚ} {B : ℤ} (h : q ≤ B) : roundHalfEven q ≤ B := by
  rcases roundHalfEven_eq_floor_or_succ q with h1 | ⟨h1, h2⟩
  · rw [h1]
    have h2 : ⌊q⌋ ≤ ⌊(B : ℚ)⌋ := Int.floor_le_floor h
    simpa using h2
  · rw [h1]
    have hfl : (⌊q⌋ : ℚ) ≤ q := Int.floor_le q
    have hlt : (⌊q⌋ : ℚ) < (B : ℚ) := by linarith
    have : ⌊q⌋ < B := by exact_mod_cast hlt
    omega

theorem pyRound2_nonneg {q : ℚ} (h : 0 ≤ q) : 0 ≤ pyRound2 q := by
  have h1 : (0 : ℤ) ≤ roundHalfEven (q * 100) :=
    roundHalfEven_nonneg (by positivity)
  have h2 : (0 : ℚ) ≤ (roundHalfEven (q * 100) : ℚ) := by exact_mod_cast h1
  unfold pyRound2
  positivity

theorem pyRound2_le_hundred {q : ℚ} (h : q ≤ 100) : pyRound2 q ≤ 100 := by
  have h1 : q * 100 ≤ ((10000 : ℤ) : ℚ) := by push_cast; linarith
  have h2 : roundHalfEven (q * 100) ≤ 10000 := roundHalfEven_le h1
  have h3 : (roundHalfEven (q * 100) : ℚ) ≤ 10000 := by exact_mod_cast h2
  unfold pyRound2
  linarith

/-! ## Helper lemmas: sorted lists and quantiles -/

theorem sorted_getD_mono {v : List ℚ} (hs : v.Sorted (· ≤ ·)) {a b : ℕ}
    (hab : a ≤ b) (hb : b < v.length) : v.getD a 0 ≤ v.getD b 0 := by
  have ha : a < v.length := lt_of_le_of_lt hab hb
  rw [List.getD_eq_get _ _ ha, List.getD_eq_get _ _ hb]
  exact hs.rel_get_of_le (by exact hab)

theorem quantileSorted_mono (v : List ℚ) (hs : List.Sorted (· ≤ ·) v)
    (hv : v ≠ []) {p q : ℚ} (hp : 0 ≤ p) (hpq : p ≤ q) (hq : q ≤ 1) :
    quantileSorted v p ≤ quantileSorted v q := by
  have hn : 1 ≤ v.length := List.length_pos.mpr hv
  have hN : (0 : ℚ) ≤ (v.length : ℚ) - 1 := by
    have : (1 : ℚ) ≤ (v.length : ℚ) := by exact_mod_cast hn
    linarith
  set x := p * ((v.length : ℚ) - 1) with hxdef
  set y := q * ((v.length : ℚ) - 1) with hydef
  have hx0 : 0 ≤ x := mul_nonneg hp hN
  have hxy : x ≤ y := mul_le_mul_of_nonneg_right hpq hN
  have hyN : y ≤ (v.length : ℚ) - 1 := by
    calc y ≤ 1 * ((v.length : ℚ) - 1) := mul_le_mul_of_nonneg_right hq hN
    _ = (v.length : ℚ) - 1 := one_mul _
  have hfx0 : (0 : ℤ) ≤ ⌊x⌋ := Int.floor_nonneg.mpr hx0
  have hfyN : ⌊y⌋ ≤ (v.length : ℤ) - 1 := by
    have h1 : ⌊y⌋ ≤ ⌊(v.length : ℚ) - 1⌋ := Int.floor_le_floor hyN
    have h2 : ⌊(v.length : ℚ) - 1⌋ = (v.length : ℤ) - 1 := by
      rw [show ((v.length : ℚ) - 1) = ((v.length : ℤ) - 1 : ℤ) by push_cast; ring]
      exact Int.floor_intCast _
    omega
  have hfxy : ⌊x⌋ ≤ ⌊y⌋ := Int.floor_le_floor hxy
  have hixlt : ⌊x⌋.toNat < v.length := by omega
  have hiylt : ⌊y⌋.toNat < v.length := by omega
  have hgx0 : 0 ≤ x - ⌊x⌋ := by
    have := Int.floor_le x; linarith
  have hgx1 : x - ⌊x⌋ < 1 := by
    have := Int.lt_floor_add_one x; push_cast at this ⊢; linarith
  have hgy0 : 0 ≤ y - ⌊y⌋ := by
    have := Int.floor_le y; linarith
  have hgy1 : y - ⌊y⌋ < 1 := by
    have := Int.lt_floor_add_one y; push_cast at this ⊢; linarith
  -- lo ≤ hi for both positions
  have lohix : v.getD ⌊x⌋.toNat 0 ≤ v.getD (⌊x⌋.toNat + 1) (v.getD ⌊x⌋.toNat 0) := by
    rcases lt_or_le (⌊x⌋.toNat + 1) v.length with hlt | hge
    · rw [List.getD_eq_get _ _ hlt]
      rw [List.getD_eq_get _ _ hixlt]
      exact hs.rel_get_of_le (by simp)
    · rw [List.getD_eq_default _ _ hge]
  have lohiy : v.getD ⌊y⌋.toNat 0 ≤ v.getD (⌊y⌋.toNat + 1) (v.getD ⌊y⌋.toNat 0) := by
    rcases lt_or_le (⌊y⌋.toNat + 1) v.length with hlt | hge
    · rw [List.getD_eq_get _ _ hlt]
      rw [List.getD_eq_get _ _ hiylt]
      exact hs.rel_get_of_le (by simp)
    · rw [List.getD_eq_default _ _ hge]
  simp only [quantileSorted]
  rcases eq_or_lt_of_le hfxy with heq | hlt
  · -- same floor: compare the interpolation fractions
    rw [← hxdef, ← hydef, ← heq]
    have hg : x - ⌊x⌋ ≤ y - ⌊x⌋ := by linarith
    nlinarith [lohix, hg, hgx0]
  · -- different floors: value at x is below v[⌊x⌋+1] ≤ v[⌊y⌋] is below value at y
    rw [← hxdef, ← hydef]
    have hstep : ⌊x⌋.toNat + 1 ≤ ⌊y⌋.toNat := by omega
    have hmid : v.getD (⌊x⌋.toNat + 1) (v.getD ⌊x⌋.toNat 0) ≤ v.getD ⌊y⌋.toNat 0 := by
      have h1 : ⌊x⌋.toNat + 1 < v.length := lt_of_le_of_lt hstep hiylt
      have h2 : v.getD (⌊x⌋.toNat + 1) (v.getD ⌊x⌋.toNat 0) = v.getD (⌊x⌋.toNat + 1) 0 := by
        rw [List.getD_eq_get _ _ h1, List.getD_eq_get _ _ h1]
      rw [h2]
      exact sorted_getD_mono hs hstep hiylt
    nlinarith [lohix, lohiy, hmid, hgx0, hgx1, hgy0]

theorem quantileSorted_zero (v : List ℚ) : quantileSorted v 0 = v.getD 0 0 := by
  simp [quantileSorted]

theorem quantileSorted_one {v : List ℚ} (hv : v ≠ []) :
    quantileSorted v 1 = v.getD (v.length - 1) 0 := by
  have hn : 1 ≤ v.length := List.length_pos.mpr hv
  have hfl : ⌊(v.length : ℚ) - 1⌋ = (v.length : ℤ) - 1 := by
    rw [show ((v.length : ℚ) - 1) = (((v.length : ℤ) - 1 : ℤ) : ℚ) by push_cast; ring]
    exact Int.floor_intCast _
  have ht : ((v.length : ℤ) - 1).toNat = v.length - 1 := by omega
  have hg : ((v.length : ℚ) - 1) - ((((v.length : ℤ) - 1) : ℤ) : ℚ) = 0 := by
    push_cast; ring
  simp only [quantileSorted, one_mul, hfl, ht, hg, mul_zero, add_zero]

theorem getD_zero_eq_head {v : List ℚ} (hv : v ≠ []) :
    v.getD 0 0 = v.head hv := by
  cases v with
  | nil => exact absurd rfl hv
  | cons a t => rfl

theorem getD_last_eq_getLast {v : List ℚ} (hv : v ≠ []) :
    v.getD (v.length - 1) 0 = v.getLast hv := by
  induction v with
  | nil => exact absurd rfl hv
  | cons a t ih =>
    cases t with
    | nil => rfl
    | cons b u =>
      have h2 : (b :: u : List ℚ) ≠ [] := List.cons_ne_nil b u
      have h3 : (a :: b :: u : List ℚ).getD ((a :: b :: u).length - 1) 0
          = (b :: u).getD ((b :: u).length - 1) 0 := by
        simp [List.getD_cons_succ]
      rw [h3, ih h2, List.getLast_cons h2]

/-! ## Helper lemmas: SchemaAgent totality on nonempty frames -/

theorem analyzeColumn_ok (gen : Gen) (df : DataFrame) (c : Col)
    (h : df.nrows ≠ 0) : ∃ r, SchemaAgent.analyzeColumn gen df c = .ok r := by
  simp only [SchemaAgent.analyzeColumn]
  split
  · next heq => exact absurd heq h
  · exact ⟨_, rfl⟩

theorem mapColumns_ok (gen : Gen) (df : DataFrame) (h : df.nrows ≠ 0) :
    ∀ cs : List Col, ∃ rs, SchemaAgent.mapColumns gen df cs = .ok rs := by
  intro cs
  induction cs with
  | nil => exact ⟨[], rfl⟩
  | cons c rest ih =>
    obtain ⟨r, hr⟩ := analyzeColumn_ok gen df c h
    obtain ⟨rs, hrs⟩ := ih
    exact ⟨r :: rs, by simp [SchemaAgent.mapColumns, hr, hrs]⟩

theorem schemaAnalyze_ok (gen : Gen) (df : DataFrame) (h : df.nrows ≠ 0) :
    ∃ r, SchemaAgent.analyze gen df = .ok r := by
  obtain ⟨rs, hrs⟩ := mapColumns_ok gen df h df.cols
  refine ⟨⟨rs, ⟨df.cols.length, df.nrows, (df.memBytes : ℚ) / 1024 ^ 2⟩⟩, ?_⟩
  simp [SchemaAgent.analyze, hrs]

/-! ## Helper lemmas: the supervisor state machine -/

theorem runStages_of_schema_error (gen : Gen) (df : DataFrame) (e : String)
    (h : SchemaAgent.analyze gen df = .error e) :
    SupervisorAgent.runStages gen df =
      { status := "in_progress"
        agents_completed := ["profile_agent", "quality_agent"]
        schema_analysis := none
        profile_analysis := some (ProfileAgent.analyze gen df)
        quality_analysis := some (QualityAgent.analyze gen df)
        ml_recommendations := none
        deployment_strategy := none
        business_communication := none
        errors := ["Schema Agent failed: " ++ e] } := by
  simp [SupervisorAgent.runStages, SupervisorAgent.initResult, h]

theorem runStages_of_schema_ok (gen : Gen) (df : DataFrame) (s : SchemaResult)
    (h : SchemaAgent.analyze gen df = .ok s) :
    SupervisorAgent.runStages gen df =
      { status := "in_progress"
        agents_completed :=
          ["schema_agent", "profile_agent", "quality_agent", "ml_advisor_agent",
           "deployment_agent", "business_communication_agent"]
        schema_analysis := some s
        profile_analysis := some (ProfileAgent.analyze gen df)
        quality_analysis := some (QualityAgent.analyze gen df)
        ml_recommendations :=
          some (MLAdvisorAgent.analyze gen s (ProfileAgent.analyze gen df)
            (QualityAgent.analyze gen df))
        deployment_strategy :=
          some (DeploymentAgent.analyze gen s
            (MLAdvisorAgent.analyze gen s (ProfileAgent.analyze gen df)
              (QualityAgent.analyze gen df)))
        business_communication :=
          some (BusinessCommunicationAgent.analyze gen
            (MLAdvisorAgent.analyze gen s (ProfileAgent.analyze gen df)
              (QualityAgent.analyze gen df))
            (DeploymentAgent.analyze gen s
              (MLAdvisorAgent.analyze gen s (ProfileAgent.analyze gen df)
                (QualityAgent.analyze gen df))))
        errors := [] } := by
  simp [SupervisorAgent.runStages, SupervisorAgent.initResult, h]

/-! ## Helper lemmas: quality severities and the summary fold -/

theorem missingSeverity_mem (p : ℚ) :
    QualityAgent.missingSeverity p = "critical" ∨
    QualityAgent.missingSeverity p = "warnings" ∨
    QualityAgent.missingSeverity p = "info" := by
  unfold QualityAgent.missingSeverity
  split
  · exact Or.inl rfl
  · split
    · exact Or.inr (Or.inl rfl)
    · exact Or.inr (Or.inr rfl)

theorem dupSeverity_mem (p : ℚ) :
    QualityAgent.dupSeverity p = "critical" ∨
    QualityAgent.dupSeverity p = "warnings" ∨
    QualityAgent.dupSeverity p = "info" := by
  unfold QualityAgent.dupSeverity
  split
  · exact Or.inr (Or.inl rfl)
  · exact Or.inr (Or.inr rfl)

theorem outlierSeverity_mem (p : ℚ) :
    QualityAgent.outlierSeverity p = "critical" ∨
    QualityAgent.outlierSeverity p = "warnings" ∨
    QualityAgent.outlierSeverity p = "info" := by
  unfold QualityAgent.outlierSeverity
  split
  · exact Or.inr (Or.inl rfl)
  · exact Or.inr (Or.inr rfl)

theorem checkMissingValues_severity (gen : Gen) (df : DataFrame) :
    ∀ i ∈ QualityAgent.checkMissingValues gen df,
      i.severity = "critical" ∨ i.severity = "warnings" ∨ i.severity = "info" := by
  intro i hi
  simp only [QualityAgent.checkMissingValues, List.mem_filterMap] at hi
  obtain ⟨c, -, hc⟩ := hi
  split at hc
  · rw [Option.some.injEq] at hc
    rw [← hc]
    exact missingSeverity_mem _
  · exact absurd hc (by simp)

theorem checkDuplicates_severity (gen : Gen) (df : DataFrame) :
    ∀ i ∈ QualityAgent.checkDuplicates gen df,
      i.severity = "critical" ∨ i.severity = "warnings" ∨ i.severity = "info" := by
  intro i hi
  simp only [QualityAgent.checkDuplicates] at hi
  split at hi
  · rw [List.mem_singleton] at hi
    rw [hi]
    exact dupSeverity_mem _
  · exact absurd hi (by simp)

theorem checkOutliers_severity (gen : Gen) (df : DataFrame) :
    ∀ i ∈ QualityAgent.checkOutliers gen df,
      i.severity = "critical" ∨ i.severity = "warnings" ∨ i.severity = "info" := by
  intro i hi
  simp only [QualityAgent.checkOutliers, List.mem_filterMap] at hi
  obtain ⟨c, -, hc⟩ := hi
  split at hc
  · exact absurd hc (by simp)
  · split at hc
    · exact absurd hc (by simp)
    · split at hc
      · rw [Option.some.injEq] at hc
        rw [← hc]
        exact outlierSeverity_mem _
      · exact absurd hc (by simp)

theorem checkCategoricalConsistency_severity (gen : Gen) (df : DataFrame) :
    ∀ i ∈ QualityAgent.checkCategoricalConsistency gen df,
      i.severity = "critical" ∨ i.severity = "warnings" ∨ i.severity = "info" := by
  intro i hi
  simp only [QualityAgent.checkCategoricalConsistency, List.mem_filterMap] at hi
  obtain ⟨c, -, hc⟩ := hi
  split at hc
  · exact absurd hc (by simp)
  · split at hc
    · split at hc
      · rw [Option.some.injEq] at hc
        rw [← hc]
        exact Or.inr (Or.inr rfl)
      · exact absurd hc (by simp)
    · exact absurd hc (by simp)

theorem summaryStep_counts (s : QualitySummary) (i : QualityIssue)
    (h : i.severity = "critical" ∨ i.severity = "warnings" ∨ i.severity = "info") :
    (summaryStep s i).critical + (summaryStep s i).warnings + (summaryStep s i).info
      = s.critical + s.warnings + s.info + 1 ∧
    (summaryStep s i).total_issues = s.total_issues + 1 := by
  rcases h with hv | hv | hv <;>
    simp [summaryStep, QualitySummary.bump, hv] <;> omega

theorem foldl_summaryStep (issues : List QualityIssue) :
    ∀ s : QualitySummary,
      (∀ i ∈ issues, i.severity = "critical" ∨ i.severity = "warnings" ∨
        i.severity = "info") →
      ((issues.foldl summaryStep s).critical + (issues.foldl summaryStep s).warnings +
        (issues.foldl summaryStep s).info
        = s.critical + s.warnings + s.info + issues.length) ∧
      (issues.foldl summaryStep s).total_issues = s.total_issues + issues.length := by
  induction issues with
  | nil => intro s _; simp
  | cons i rest ih =>
    intro s h
    have hi := h i (List.mem_cons_self i rest)
    have hrest : ∀ j ∈ rest, j.severity = "critical" ∨ j.severity = "warnings" ∨
        j.severity = "info" := fun j hj => h j (List.mem_cons_of_mem i hj)
    rw [List.foldl_cons]
    obtain ⟨h1, h2⟩ := ih (summaryStep s i) hrest
    obtain ⟨h3, h4⟩ := summaryStep_counts s i hi
    refine ⟨?_, ?_⟩
    · rw [h1, h3, List.length_cons]; omega
    · rw [h2, h4, List.length_cons]; omega

/-! ## Helper lemmas: column counts -/

theorem nullCount_le_length (d : ColData) : d.nullCount ≤ d.length := by
  cases d <;> exact List.length_filter_le _ _

theorem failGen_allFail : GenAllFail failGen :=
  ⟨fun _ => ⟨_, rfl⟩, fun _ => ⟨_, rfl⟩, fun _ => ⟨_, rfl⟩, fun _ => ⟨_, rfl⟩,
   fun _ => ⟨_, rfl⟩, fun _ => ⟨_, rfl⟩, fun _ => ⟨_, rfl⟩, fun _ => ⟨_, rfl⟩⟩

/-! ## Claim theorems -/

/-- C1: for every dataset, if the Schema stage raises an exception during
analyze_dataset, then the MLAdvisor, Deployment and BusinessCommunication
stages are not run: their result fields remain absent, their names are
absent from agents_completed, and the final status is partial_failure. -/
theorem schema_failure_gates_downstream (gen : Gen) (df : DataFrame) (e : String)
    (h : SchemaAgent.analyze gen df = .error e) :
    (SupervisorAgent.analyzeDataset gen df).ml_recommendations = none ∧
    (SupervisorAgent.analyzeDataset gen df).deployment_strategy = none ∧
    (SupervisorAgent.analyzeDataset gen df).business_communication = none ∧
    "ml_advisor_agent" ∉ (SupervisorAgent.analyzeDataset gen df).agents_completed ∧
    "deployment_agent" ∉ (SupervisorAgent.analyzeDataset gen df).agents_completed ∧
    "business_communication_agent" ∉
      (SupervisorAgent.analyzeDataset gen df).agents_completed ∧
    (SupervisorAgent.analyzeDataset gen df).status = "partial_failure" := by
  have h1 := runStages_of_schema_error gen df e h
  simp [SupervisorAgent.analyzeDataset, h1]

/-- C1 witness: a one-column zero-row frame makes the Schema stage raise
ZeroDivisionError, and the gating conclusions hold there. -/
theorem schema_failure_gates_downstream_witness :
    SchemaAgent.analyze failGen dfEmpty = .error "division by zero" ∧
    ((SupervisorAgent.analyzeDataset failGen dfEmpty).ml_recommendations = none ∧
     (SupervisorAgent.analyzeDataset failGen dfEmpty).deployment_strategy = none ∧
     (SupervisorAgent.analyzeDataset failGen dfEmpty).business_communication = none ∧
     "ml_advisor_agent" ∉
       (SupervisorAgent.analyzeDataset failGen dfEmpty).agents_completed ∧
     "deployment_agent" ∉
       (SupervisorAgent.analyzeDataset failGen dfEmpty).agents_completed ∧
     "business_communication_agent" ∉
       (SupervisorAgent.analyzeDataset failGen dfEmpty).agents_completed ∧
     (SupervisorAgent.analyzeDataset failGen dfEmpty).status = "partial_failure") :=
  ⟨rfl, schema_failure_gates_downstream failGen dfEmpty "division by zero" rfl⟩

/-- C2 counterexample: with a collaborator that fails on every call and a
one-row dataset, analyze_dataset finishes with status completed and an empty
errors list - not with status partial_failure and one error string per
failing stage call site as the claim states. -/
theorem always_failing_generation_counterexample :
    GenAllFail failGen ∧
    (SupervisorAgent.analyzeDataset failGen dfOne).status = "completed" ∧
    (SupervisorAgent.analyzeDataset failGen dfOne).errors = [] :=
  ⟨failGen_allFail, rfl, rfl⟩

/-- C2 (amended): if the generation collaborator fails on every call and the
dataset has at least one row, every stage still returns a well-formed record
and no exception escapes the Supervisor, but all generation failures are
swallowed by stage-internal fallbacks: the errors list stays empty and the
final status is completed, with zero error strings. -/
theorem always_failing_generation_degrades_gracefully (gen : Gen)
    (df : DataFrame) (hrows : df.nrows ≠ 0) (_hfail : GenAllFail gen) :
    (SupervisorAgent.analyzeDataset gen df).status = "completed" ∧
    (SupervisorAgent.analyzeDataset gen df).errors = [] ∧
    (SupervisorAgent.analyzeDataset gen df).schema_analysis.isSome ∧
    (SupervisorAgent.analyzeDataset gen df).profile_analysis.isSome ∧
    (SupervisorAgent.analyzeDataset gen df).quality_analysis.isSome ∧
    (SupervisorAgent.analyzeDataset gen df).ml_recommendations.isSome ∧
    (SupervisorAgent.analyzeDataset gen df).deployment_strategy.isSome ∧
    (SupervisorAgent.analyzeDataset gen df).business_communication.isSome := by
  obtain ⟨s, hs⟩ := schemaAnalyze_ok gen df hrows
  have h1 := runStages_of_schema_ok gen df s hs
  simp [SupervisorAgent.analyzeDataset, h1]

/-- C2 witness: the amended conclusions at the failing oracle and a one-row
frame. -/
theorem always_failing_generation_degrades_gracefully_witness :
    dfOne.nrows ≠ 0 ∧ GenAllFail failGen ∧
    ((SupervisorAgent.analyzeDataset failGen dfOne).status = "completed" ∧
     (SupervisorAgent.analyzeDataset failGen dfOne).errors = [] ∧
     (SupervisorAgent.analyzeDataset failGen dfOne).schema_analysis.isSome ∧
     (SupervisorAgent.analyzeDataset failGen dfOne).profile_analysis.isSome ∧
     (SupervisorAgent.analyzeDataset failGen dfOne).quality_analysis.isSome ∧
     (SupervisorAgent.analyzeDataset failGen dfOne).ml_recommendations.isSome ∧
     (SupervisorAgent.analyzeDataset failGen dfOne).deployment_strategy.isSome ∧
     (SupervisorAgent.analyzeDataset failGen dfOne).business_communication.isSome) :=
  ⟨by decide, failGen_allFail,
   always_failing_generation_degrades_gracefully failGen dfOne (by decide)
     failGen_allFail⟩

/-- C3: the final status of analyze_dataset is completed exactly when the
errors list is empty, and the only other terminal status is
partial_failure - never failed, never a lingering in_progress. -/
theorem final_status_dichotomy (gen : Gen) (df : DataFrame) :
    ((SupervisorAgent.analyzeDataset gen df).status = "completed" ↔
      (SupervisorAgent.analyzeDataset gen df).errors = []) ∧
    ((SupervisorAgent.analyzeDataset gen df).status = "completed" ∨
      (SupervisorAgent.analyzeDataset gen df).status = "partial_failure") := by
  simp only [SupervisorAgent.analyzeDataset]
  split
  · next h =>
    have he : (SupervisorAgent.runStages gen df).errors = [] :=
      List.length_eq_zero.mp h
    exact ⟨by simp [he], Or.inl rfl⟩
  · next h =>
    refine ⟨⟨fun hc => absurd hc (by simp), fun he => ?_⟩, Or.inr rfl⟩
    exact absurd (by simpa using congrArg List.length he) h

/-- C4: in every QualityAgent result the per-severity counts sum to
total_issues, which equals the length of issues_found. -/
theorem quality_summary_consistent (gen : Gen) (df : DataFrame) :
    (QualityAgent.analyze gen df).summary.critical +
      (QualityAgent.analyze gen df).summary.warnings +
      (QualityAgent.analyze gen df).summary.info
      = (QualityAgent.analyze gen df).summary.total_issues ∧
    (QualityAgent.analyze gen df).summary.total_issues
      = (QualityAgent.analyze gen df).issues_found.length := by
  have hmem : ∀ i ∈ QualityAgent.checkMissingValues gen df ++
      QualityAgent.checkDuplicates gen df ++ QualityAgent.checkOutliers gen df ++
      QualityAgent.checkCategoricalConsistency gen df,
      i.severity = "critical" ∨ i.severity = "warnings" ∨ i.severity = "info" := by
    intro i hi
    simp only [List.mem_append] at hi
    rcases hi with ((hi | hi) | hi) | hi
    · exact checkMissingValues_severity gen df i hi
    · exact checkDuplicates_severity gen df i hi
    · exact checkOutliers_severity gen df i hi
    · exact checkCategoricalConsistency_severity gen df i hi
  obtain ⟨h1, h2⟩ := foldl_summaryStep _ ⟨0, 0, 0, 0, []⟩ hmem
  dsimp only at h1 h2
  simp only [QualityAgent.analyze, foldSummary]
  exact ⟨by rw [h1, h2]; try omega, by rw [h2]; try omega⟩

/-- C5: for every column of a dataset with at least one row, the Schema
stage computes null_percentage = round(100 * null_count / total_rows, 2),
and the value lies between 0 and 100. -/
theorem null_percentage_formula (gen : Gen) (df : DataFrame) (c : Col)
    (hrows : df.nrows ≠ 0) (hwf : c.data.length = df.nrows) :
    ∃ rec, SchemaAgent.analyzeColumn gen df c = .ok rec ∧
      rec.null_percentage = pyRound2 (100 * (c.data.nullCount : ℚ) / df.nrows) ∧
      0 ≤ rec.null_percentage ∧ rec.null_percentage ≤ 100 := by
  have hle : (c.data.nullCount : ℚ) ≤ (df.nrows : ℚ) := by
    have := nullCount_le_length c.data
    rw [hwf] at this
    exact_mod_cast this
  have hpos : (0 : ℚ) < (df.nrows : ℚ) := by
    have : 0 < df.nrows := Nat.pos_of_ne_zero hrows
    exact_mod_cast this
  have hraw0 : (0 : ℚ) ≤ (c.data.nullCount : ℚ) / (df.nrows : ℚ) * 100 := by
    positivity
  have hraw100 : (c.data.nullCount : ℚ) / (df.nrows : ℚ) * 100 ≤ 100 := by
    have hdiv : (c.data.nullCount : ℚ) / (df.nrows : ℚ) ≤ 1 :=
      (div_le_one hpos).mpr hle
    linarith
  simp only [SchemaAgent.analyzeColumn]
  rw [if_neg hrows]
  refine ⟨_, rfl, ?_, ?_, ?_⟩
  · exact congrArg pyRound2 (by ring)
  · exact pyRound2_nonneg hraw0
  · exact pyRound2_le_hundred hraw100

/-- C5 witness: the formula and bounds at a concrete one-row frame. -/
theorem null_percentage_formula_witness :
    dfOne.nrows ≠ 0 ∧
    (∃ rec,
      SchemaAgent.analyzeColumn failGen dfOne ⟨"a", .numeric [some 1]⟩ = .ok rec ∧
      rec.null_percentage =
        pyRound2 (100 * ((ColData.numeric [some 1]).nullCount : ℚ) / dfOne.nrows) ∧
      0 ≤ rec.null_percentage ∧ rec.null_percentage ≤ 100) :=
  ⟨by decide, null_percentage_formula failGen dfOne ⟨"a", .numeric [some 1]⟩
    (by decide) rfl⟩

/-- C6 counterexample: on a numeric column whose only cell is null, all five
order statistics computed by the Profile stage are the NaN outcome (none),
so the record carries no real values satisfying the claimed chain
min ≤ q25 ≤ median ≤ q75 ≤ max (in float semantics every comparison with
NaN is false). -/
theorem stats_order_counterexample :
    (ProfileAgent.analyzeNumericColumn failGen "a" [none]).min = none ∧
    (ProfileAgent.analyzeNumericColumn failGen "a" [none]).q25 = none ∧
    (ProfileAgent.analyzeNumericColumn failGen "a" [none]).median = none ∧
    (ProfileAgent.analyzeNumericColumn failGen "a" [none]).q75 = none ∧
    (ProfileAgent.analyzeNumericColumn failGen "a" [none]).max = none :=
  ⟨rfl, rfl, rfl, rfl, rfl⟩

/-- C6 (amended): for every numeric column with at least one non-null value,
the Profile stage stats satisfy min ≤ q25 ≤ median ≤ q75 ≤ max, regardless
of the distribution shape. -/
theorem stats_order_invariant (gen : Gen) (name : String)
    (xs : List (Option ℚ)) (h : nonNull xs ≠ []) :
    ∃ a b c d e,
      (ProfileAgent.analyzeNumericColumn gen name xs).min = some a ∧
      (ProfileAgent.analyzeNumericColumn gen name xs).q25 = some b ∧
      (ProfileAgent.analyzeNumericColumn gen name xs).median = some c ∧
      (ProfileAgent.analyzeNumericColumn gen name xs).q75 = some d ∧
      (ProfileAgent.analyzeNumericColumn gen name xs).max = some e ∧
      a ≤ b ∧ b ≤ c ∧ c ≤ d ∧ d ≤ e := by
  have hlen : (nonNull xs).length ≠ 0 := fun h0 => h (List.length_eq_zero.mp h0)
  have hvlen : (List.insertionSort (· ≤ ·) (nonNull xs)).length ≠ 0 := by
    rw [List.length_insertionSort]
    exact hlen
  have hv : List.insertionSort (· ≤ ·) (nonNull xs) ≠ [] :=
    fun h0 => hvlen (by rw [h0]; rfl)
  have hs : List.Sorted (· ≤ ·) (List.insertionSort (· ≤ ·) (nonNull xs)) :=
    List.sorted_insertionSort _ _
  simp only [ProfileAgent.analyzeNumericColumn]
  rw [if_neg hlen, if_neg hlen, if_neg hlen]
  rw [List.head?_eq_head hv, List.getLast?_eq_getLast _ hv]
  refine ⟨_, _, _, _, _, rfl, rfl, rfl, rfl, rfl, ?_, ?_, ?_, ?_⟩
  · rw [← getD_zero_eq_head hv, ← quantileSorted_zero]
    exact quantileSorted_mono _ hs hv (le_refl 0) (by norm_num) (by norm_num)
  · exact quantileSorted_mono _ hs hv (by norm_num) (by norm_num) (by norm_num)
  · exact quantileSorted_mono _ hs hv (by norm_num) (by norm_num) (by norm_num)
  · rw [← getD_last_eq_getLast hv, ← quantileSorted_one hv]
    exact quantileSorted_mono _ hs hv (by norm_num) (by norm_num) (le_refl 1)

/-- C6 witness: the amended chain at a concrete two-value column. -/
theorem stats_order_invariant_witness :
    nonNull [some 3, some (1 : ℚ)] ≠ [] ∧
    (∃ a b c d e,
      (ProfileAgent.analyzeNumericColumn failGen "a" [some 3, some 1]).min = some a ∧
      (ProfileAgent.analyzeNumericColumn failGen "a" [some 3, some 1]).q25 = some b ∧
      (ProfileAgent.analyzeNumericColumn failGen "a" [some 3, some 1]).median = some c ∧
      (ProfileAgent.analyzeNumericColumn failGen "a" [some 3, some 1]).q75 = some d ∧
      (ProfileAgent.analyzeNumericColumn failGen "a" [some 3, some 1]).max = some e ∧
      a ≤ b ∧ b ≤ c ∧ c ≤ d ∧ d ≤ e) :=
  ⟨by decide, stats_order_invariant failGen "a" [some 3, some 1] (by decide)⟩

/-- C7 counterexample: the core does enforce no size limit, but on a frame
with one named column and zero rows the Schema per-column analysis raises
ZeroDivisionError instead of completing. -/
theorem schema_raises_on_zero_rows :
    SchemaAgent.analyze failGen dfEmpty = .error "division by zero" := rfl

/-- C7 (amended): no row-count or column-count limit is enforced, and for
every dataset with at least one row (of any width) SchemaAgent.analyze
completes without raising; on a zero-row frame with named columns it raises
ZeroDivisionError while computing null_percentage. -/
theorem schema_total_on_nonempty (gen : Gen) (df : DataFrame)
    (h : df.nrows ≠ 0) : ∃ r, SchemaAgent.analyze gen df = .ok r :=
  schemaAnalyze_ok gen df h

/-- C7 witness: completion on a concrete one-row frame. -/
theorem schema_total_on_nonempty_witness :
    dfOne.nrows ≠ 0 ∧ ∃ r, SchemaAgent.analyze failGen dfOne = .ok r :=
  ⟨by decide, schema_total_on_nonempty failGen dfOne (by decide)⟩

/-- C8: in MLAdvisorAgent.analyze a failure of the first generation call
does not prevent the second call: the feature-planning call is still issued,
with the sentinel inputs target_variable = Unknown and detected_use_case =
Unable to detect, and each call failure is independently replaced by its own
stage-appropriate sentinel text. -/
theorem ml_advisor_best_effort (gen : Gen) (s : SchemaResult)
    (p : ProfileResult) (q : QualityResult) (e : String)
    (h : gen.mlUseCaseDetector (MLAdvisorAgent.detectorInputs s p q) = .error e) :
    MLAdvisorAgent.analyze gen s p q =
      { ml_use_case := ⟨"Unable to detect", "Unknown", "Error: " ++ e, "0", "N/A"⟩
        feature_engineering :=
          match gen.featurePlanner
              (MLAdvisorAgent.plannerInputs s p "Unknown" "Unable to detect") with
          | .ok o => ⟨o.feature_plan, o.training_recommendations, o.mlflow_setup⟩
          | .error e2 =>
              ⟨"Error generating plan: " ++ e2,
               "Unable to generate recommendations",
               "Unable to generate MLflow recommendations"⟩ } := by
  simp only [MLAdvisorAgent.analyze, h]

/-- C8 witness: with an oracle whose detection call fails and whose planning
call succeeds, the planner is invoked on the sentinel inputs and its output
is used. -/
theorem ml_advisor_best_effort_witness :
    genDetFail.mlUseCaseDetector (MLAdvisorAgent.detectorInputs sEx pEx qEx)
      = .error "boom" ∧
    MLAdvisorAgent.analyze genDetFail sEx pEx qEx =
      { ml_use_case := ⟨"Unable to detect", "Unknown", "Error: " ++ "boom", "0", "N/A"⟩
        feature_engineering :=
          match genDetFail.featurePlanner
              (MLAdvisorAgent.plannerInputs sEx pEx "Unknown" "Unable to detect") with
          | .ok o => ⟨o.feature_plan, o.training_recommendations, o.mlflow_setup⟩
          | .error e2 =>
              ⟨"Error generating plan: " ++ e2,
               "Unable to generate recommendations",
               "Unable to generate MLflow recommendations"⟩ } :=
  ⟨rfl, ml_advisor_best_effort genDetFail sEx pEx qEx "boom" rfl⟩

/-- C9 counterexample: the zero-variance numeric column [5, 5] has fewer
than three observations, so pandas reports NaN for its skewness rather than
the fixed sentinel 0 - the claim fails for zero-variance columns of length
one or two. -/
theorem zero_variance_skew_counterexample :
    (ProfileAgent.analyzeNumericColumn failGen "x" [some 5, some 5]).skewness
      = SkewVal.nan ∧ SkewVal.nan ≠ SkewVal.ofRat 0 :=
  ⟨rfl, by decide⟩

/-- C9 (amended): for every numeric column with zero variance (all non-null
values equal) and at least three non-null values, the Profile stage reports
the deterministic sentinel skewness 0 rather than failing; shorter columns
report NaN. -/
theorem zero_variance_skew_sentinel (gen : Gen) (name : String)
    (xs : List (Option ℚ)) (c : ℚ) (h3 : 3 ≤ (nonNull xs).length)
    (hc : ∀ x ∈ nonNull xs, x = c) :
    (ProfileAgent.analyzeNumericColumn gen name xs).skewness = SkewVal.ofRat 0 := by
  have hn0 : ((nonNull xs).length : ℚ) ≠ 0 := by
    have h0 : (nonNull xs).length ≠ 0 := by omega
    exact_mod_cast h0
  have hmean : (nonNull xs).sum / ((nonNull xs).length : ℚ) = c := by
    rw [List.sum_eq_card_nsmul (nonNull xs) c hc, nsmul_eq_mul]
    field_simp
  have hm2 : ((nonNull xs).map fun x =>
      (x - (nonNull xs).sum / ((nonNull xs).length : ℚ)) ^ 2).sum = 0 := by
    apply List.sum_eq_zero
    intro y hy
    simp only [List.mem_map] at hy
    obtain ⟨x, hx, hxy⟩ := hy
    rw [← hxy, hmean, hc x hx, sub_self]
    ring
  simp only [ProfileAgent.analyzeNumericColumn, skewness]
  rw [if_neg (by omega), if_pos hm2]

/-- C9 witness: the sentinel at a concrete constant column of length 3. -/
theorem zero_variance_skew_sentinel_witness :
    3 ≤ (nonNull [some 5, some 5, some (5 : ℚ)]).length ∧
    (∀ x ∈ nonNull [some 5, some 5, some (5 : ℚ)], x = 5) ∧
    (ProfileAgent.analyzeNumericColumn failGen "x" [some 5, some 5, some 5]).skewness
      = SkewVal.ofRat 0 :=
  ⟨by decide, by decide,
   zero_variance_skew_sentinel failGen "x" [some 5, some 5, some 5] 5
     (by decide) (by decide)⟩

/-- C10: generate_prd is gated on all five of the schema, quality, ml,
deployment and business-communication results: whenever at least one of
them is absent it returns the fixed structured error result, for every
oracle (so the generation collaborator is never consulted) and without
raising. -/
theorem generate_prd_gated (gen : Gen) (r : PipelineResult)
    (h : r.schema_analysis = none ∨ r.quality_analysis = none ∨
         r.ml_recommendations = none ∨ r.deployment_strategy = none ∨
         r.business_communication = none) :
    SupervisorAgent.generatePrd gen r =
      ⟨"# Error\n\nInsufficient data to generate PRD. Please complete all analysis steps first.",
       "error"⟩ := by
  have hneg : ¬(r.schema_analysis.isSome ∧ r.quality_analysis.isSome ∧
      r.ml_recommendations.isSome ∧ r.deployment_strategy.isSome ∧
      r.business_communication.isSome) := by
    rcases h with h | h | h | h | h <;> simp [h]
  simp only [SupervisorAgent.generatePrd]
  rw [dif_neg hneg]

/-- C10 witness: the fixed error result on a cache missing one of the five
required entries. -/
theorem generate_prd_gated_witness :
    (rMissing.schema_analysis = none ∨ rMissing.quality_analysis = none ∨
     rMissing.ml_recommendations = none ∨ rMissing.deployment_strategy = none ∨
     rMissing.business_communication = none) ∧
    SupervisorAgent.generatePrd failGen rMissing =
      ⟨"# Error\n\nInsufficient data to generate PRD. Please complete all analysis steps first.",
       "error"⟩ :=
  ⟨Or.inr (Or.inr (Or.inr (Or.inr rfl))),
   generate_prd_gated failGen rMissing (Or.inr (Or.inr (Or.inr (Or.inr rfl))))⟩
